import Mathlib

/-!
Verification development for the citi_reserach data-conversion scripts.

The embedding models the fragment synthesis and validation logic of
`fragment_validator.py` (fixed-rate synthesis plus its validation pass),
`fragment_abstraction.py` (fixed-rate synthesis variant writing a textual
cpu_count), `fragment_file_maker.py` (one randomized fragment per spreadsheet
row) and the task-record construction of `task_file_maker.py`.

Python floats are modelled as `ℚ`, Python/NumPy integers as `ℤ` (no claim
touches integer overflow; NumPy's float-to-int32 conversion is undefined for
out-of-range values, so wrap-around is deliberately not modelled), pandas
cells as an explicit `Cell` type, and the process-global `random` generator
as an explicit draw sequence passed to the functions that consume it.
-/

namespace CitiResearch

/-- A pandas cell. By convention `num` holds any value pandas `to_numeric`
would parse as a number (including numeric text), `str` holds non-numeric
text, `na` a missing value. -/
inductive Cell where
  | na : Cell
  | num : ℚ → Cell
  | str : String → Cell
  deriving DecidableEq, Repr

/-- pandas `to_numeric(errors="coerce")` on one cell: numeric cells keep
their value, missing and non-numeric cells become NaN (modelled `none`). -/
def Cell.toNumericOrNa : Cell → Option ℚ
  | Cell.na => none
  | Cell.num q => some q
  | Cell.str _ => none

/-- `to_numeric(errors="coerce")` followed by `fillna d`. -/
def coerceFill (d : ℚ) (c : Cell) : ℚ := (c.toNumericOrNa).getD d

/-- NumPy `astype` to an integer dtype truncates toward zero. -/
def truncToInt (q : ℚ) : ℤ := if 0 ≤ q then ⌊q⌋ else -⌊-q⌋

/-- One row of the tasks table: the three columns the fragment scripts read. -/
structure TaskRow where
  id : String
  cpu_count : ℤ
  cpu_capacity : ℚ
  deriving DecidableEq, Repr

/-- `fragment_duration_ms = 300000`, the 5-minute slice length hard-coded in
fragment_validator.py and fragment_abstraction.py. -/
def fragment_duration_ms : ℤ := 300000

/-- `total_duration_ms = duration_hours * 60 * 60 * 1000`. -/
def total_duration_ms (duration_hours : ℚ) : ℚ :=
  duration_hours * 60 * 60 * 1000

/-- `fragments_per_vm = total_duration_ms // fragment_duration_ms`
(Python floor division). -/
def fragments_per_vm (duration_hours : ℚ) : ℤ :=
  ⌊total_duration_ms duration_hours / (300000 : ℚ)⌋

/-- The warning printed by fragment_validator.py (line 38) when the slices do
not exactly cover the requested duration:
`fragments_per_vm * fragment_duration_ms != total_duration_ms`. -/
def fv_truncation_warning (duration_hours : ℚ) : Bool :=
  ((fragments_per_vm duration_hours * fragment_duration_ms : ℤ) : ℚ)
    ≠ total_duration_ms duration_hours

/-- One output fragment of fragment_validator.py. -/
structure FVFragment where
  id : String
  duration : ℤ
  cpu_count : ℤ
  cpu_usage : ℚ
  deriving DecidableEq, Repr

/-- The per-record inner loop of fragment_validator.create_fragment_file
(lines 64-81): `n = int(fragments_per_vm)` identical fragments with
`cpu_usage = cpu_capacity * usage_percentage`. -/
def fv_fragments_for_vm (usage_percentage : ℚ) (n : ℕ) (vm : TaskRow) :
    List FVFragment :=
  List.replicate n
    { id := vm.id
      duration := fragment_duration_ms
      cpu_count := vm.cpu_count
      cpu_usage := vm.cpu_capacity * usage_percentage }

/-- All fragments produced by fragment_validator.create_fragment_file for a
task table: one block of `fragments_per_vm` fragments per row, in row order
(`range(int(fragments_per_vm))` is empty when the count is negative, hence
`toNat`). -/
def fv_make_fragments (tasks : List TaskRow) (usage_percentage : ℚ)
    (duration_hours : ℚ) : List FVFragment :=
  (tasks.map
      (fv_fragments_for_vm usage_percentage
        (fragments_per_vm duration_hours).toNat)).flatten

/-- One entry of the validation report built at lines 103-129 of
fragment_validator.py. The script additionally stores the two durations
converted to hours for display; the match flags are computed from the
millisecond values kept here. -/
structure ValidationResult where
  vm_id : String
  expected_fragments : ℤ
  actual_fragments : ℤ
  fragments_match : Bool
  expected_duration_ms : ℤ
  actual_duration_ms : ℤ
  duration_match : Bool
  expected_cpu_usage : ℚ
  actual_cpu_usage : ℚ
  cpu_usage_match : Bool
  deriving DecidableEq, Repr

/-- `fragment_df.groupby` membership: the fragments carrying one id. -/
def fv_group (fragments : List FVFragment) (vm_id : String) : List FVFragment :=
  fragments.filter (fun f => f.id = vm_id)

/-- The group keys of `fragment_df.groupby("id")`: the distinct fragment ids,
in ascending order (pandas sorts group keys). -/
def fv_group_keys (fragments : List FVFragment) : List String :=
  ((fragments.map (fun f => f.id)).dedup).mergeSort (fun a b => a ≤ b)

/-- One validation entry (lines 103-129 of fragment_validator.py).
`task_df[task_df.id == vm_id].iloc[0]` raises IndexError when no task row
carries the id; that crash is modelled by `none`. The cpu-usage comparison
uses the MEAN of the group's cpu_usage values and the hard-coded absolute
tolerance `0.001`. -/
def fv_validation_entry (tasks : List TaskRow) (fragments : List FVFragment)
    (usage_percentage : ℚ) (expected_fragments : ℤ) (vm_id : String) :
    Option ValidationResult :=
  match tasks.find? (fun t => t.id = vm_id) with
  | none => none
  | some vm_data =>
    let grp := fv_group fragments vm_id
    let expected_duration_ms := fragment_duration_ms * expected_fragments
    let expected_cpu_usage := vm_data.cpu_capacity * usage_percentage
    let actual_duration_ms := (grp.map (fun f => f.duration)).sum
    let actual_cpu_usage := (grp.map (fun f => f.cpu_usage)).sum / (grp.length : ℚ)
    some
      { vm_id := vm_id
        expected_fragments := expected_fragments
        actual_fragments := (grp.length : ℤ)
        fragments_match := expected_fragments = (grp.length : ℤ)
        expected_duration_ms := expected_duration_ms
        actual_duration_ms := actual_duration_ms
        duration_match := expected_duration_ms = actual_duration_ms
        expected_cpu_usage := expected_cpu_usage
        actual_cpu_usage := actual_cpu_usage
        cpu_usage_match := |expected_cpu_usage - actual_cpu_usage| < 1/1000 }

/-- The validation loop over a list of group keys; the IndexError raised on a
key absent from the task table aborts the whole loop (`none`). -/
def fv_validate_keys (tasks : List TaskRow) (fragments : List FVFragment)
    (usage_percentage : ℚ) (expected_fragments : ℤ) :
    List String → Option (List ValidationResult)
  | [] => some []
  | vm_id :: rest =>
    match fv_validation_entry tasks fragments usage_percentage expected_fragments vm_id,
        fv_validate_keys tasks fragments usage_percentage expected_fragments rest with
    | some r, some rs => some (r :: rs)
    | _, _ => none

/-- The validation pass of fragment_validator.create_fragment_file. On an
empty fragment list `pd.DataFrame([])` has no columns at all, so the script
raises KeyError before any report exists (already at line 84 on
`fragment_df["cpu_count"]`, and `fragment_df.groupby("id")` at line 100
raises the same way); that crash is modelled by `none`. -/
def fv_validate (tasks : List TaskRow) (fragments : List FVFragment)
    (usage_percentage : ℚ) (expected_fragments : ℤ) :
    Option (List ValidationResult) :=
  if fragments = [] then none
  else
    fv_validate_keys tasks fragments usage_percentage expected_fragments
      (fv_group_keys fragments)

/-- `all_pass` (lines 135-139): the conjunction of the three `.all()` columns
of the validation table, the value the script computes for the reports it
reaches (which are always nonempty: each group key carries at least one
fragment). On an empty report the column lookup itself raises (line 136);
`fv_overall_result` models that. -/
def fv_all_pass (results : List ValidationResult) : Bool :=
  results.all (fun r => r.fragments_match)
    && results.all (fun r => r.duration_match)
    && results.all (fun r => r.cpu_usage_match)

/-- The overall outcome of lines 135-145: on a nonempty report it is
`all_pass`; on an empty report `validation_df["fragments_match"]` raises
KeyError (line 136, an empty DataFrame has no columns), modelled `none` —
the script never reports a pass with no fragments. -/
def fv_overall_result (results : List ValidationResult) : Option Bool :=
  if results = [] then none else some (fv_all_pass results)

/-- An input parquet table as seen by the scripts: its column names and, when
the three required columns are present, its rows as typed records. -/
structure InputTable where
  columns : List String
  rows : List TaskRow
  deriving Repr

/-- `required_columns` of fragment_validator.py (line 48). -/
def fv_required_columns : List String := ["id", "cpu_capacity", "cpu_count"]

/-- `required_columns` of fragment_abstraction.py (line 41). -/
def fa_required_columns : List String := ["id", "cpu_capacity"]

/-- `[col for col in required_columns if col not in df.columns]`. -/
def missing_columns (required cols : List String) : List String :=
  required.filter (fun c => ! cols.contains c)

/-- `generate_synthetic_vms`: `num_vms` records with
`cpu_count = random.randint(2, 16)` (modelled by the draw sequence `gen`,
reduced into the inclusive range) and `cpu_capacity = cpu_count * 1000.0`. -/
def generate_synthetic_vms (gen : ℕ → ℕ) (num_vms : ℕ) : List TaskRow :=
  (List.range num_vms).map (fun i =>
    { id := "vm-" ++ toString (1000 + i)
      cpu_count := ((2 + gen i % 15 : ℕ) : ℤ)
      cpu_capacity := ((2 + gen i % 15 : ℕ) : ℚ) * 1000 })

/-- The input-reading branch of fragment_validator.create_fragment_file
(lines 43-58): a missing file or unreadable input is `none`; a missing
required column raises ValueError, which the surrounding `except` catches,
substituting 10 synthetic VMs in either case. -/
def fv_read_task_df (input : Option InputTable) (gen : ℕ → ℕ) : List TaskRow :=
  match input with
  | none => generate_synthetic_vms gen 10
  | some t =>
    if missing_columns fv_required_columns t.columns = [] then t.rows
    else generate_synthetic_vms gen 10

/-- Same branch in fragment_abstraction.py (lines 34-52), whose required
columns do not include cpu_count. -/
def fa_read_task_df (input : Option InputTable) (gen : ℕ → ℕ) : List TaskRow :=
  match input with
  | none => generate_synthetic_vms gen 10
  | some t =>
    if missing_columns fa_required_columns t.columns = [] then t.rows
    else generate_synthetic_vms gen 10

/-- Everything fragment_validator.create_fragment_file computes: the task
table it settles on, the fragment table it writes, the validation report
(`none` models the IndexError crash), and the truncation warning. -/
structure FVRun where
  task_df : List TaskRow
  fragments : List FVFragment
  validation : Option (List ValidationResult)
  truncation_warning : Bool

/-- fragment_validator.create_fragment_file, end to end. When the fragment
list is empty the script raises KeyError at line 84 before writing anything;
in that case the run's validation field is `none` (see `fv_validate`) and no
output file exists. -/
def fv_create_fragment_file (input : Option InputTable) (gen : ℕ → ℕ)
    (usage_percentage duration_hours : ℚ) : FVRun :=
  let task_df := fv_read_task_df input gen
  let fragments := fv_make_fragments task_df usage_percentage duration_hours
  { task_df := task_df
    fragments := fragments
    validation :=
      fv_validate task_df fragments usage_percentage
        (fragments_per_vm duration_hours)
    truncation_warning := fv_truncation_warning duration_hours }

/-- Arrow column dtypes used by the three fragment writers. -/
inductive PaType where
  | string : PaType
  | int64 : PaType
  | int32 : PaType
  | float64 : PaType
  deriving DecidableEq, Repr

/-- One field of a pyarrow schema: name, dtype, nullable flag. -/
structure SchemaField where
  name : String
  dtype : PaType
  nullable : Bool
  deriving DecidableEq, Repr

/-- The output schema of fragment_validator.py (lines 86-91). -/
def fragment_validator_schema : List SchemaField :=
  [{ name := "id", dtype := PaType.string, nullable := false },
   { name := "duration", dtype := PaType.int64, nullable := false },
   { name := "cpu_count", dtype := PaType.int32, nullable := false },
   { name := "cpu_usage", dtype := PaType.float64, nullable := false }]

/-- The output schema of fragment_file_maker.py (lines 90-95). -/
def fragment_file_maker_schema : List SchemaField :=
  [{ name := "id", dtype := PaType.string, nullable := false },
   { name := "duration", dtype := PaType.int64, nullable := false },
   { name := "cpu_count", dtype := PaType.int32, nullable := false },
   { name := "cpu_usage", dtype := PaType.float64, nullable := false }]

/-- The output schema of fragment_abstraction.py (lines 78-83): cpu_count is
declared as a non-null STRING column. -/
def fragment_abstraction_schema : List SchemaField :=
  [{ name := "id", dtype := PaType.string, nullable := false },
   { name := "duration", dtype := PaType.int64, nullable := false },
   { name := "cpu_count", dtype := PaType.string, nullable := false },
   { name := "cpu_usage", dtype := PaType.float64, nullable := false }]

/-- One output fragment of fragment_abstraction.py: cpu_count is text. -/
structure FAFragment where
  id : String
  duration : ℤ
  cpu_count : String
  cpu_usage : ℚ
  deriving DecidableEq, Repr

/-- The constant text fragment_abstraction.py stores in every cpu_count
cell (line 72). -/
def fa_cpu_count_text : String :=
  "Same as the amount of CPUs of the VM it is running on"

/-- The per-record inner loop of fragment_abstraction.create_fragment_file
(lines 58-74). -/
def fa_fragments_for_vm (usage_percentage : ℚ) (n : ℕ) (vm : TaskRow) :
    List FAFragment :=
  List.replicate n
    { id := vm.id
      duration := fragment_duration_ms
      cpu_count := fa_cpu_count_text
      cpu_usage := vm.cpu_capacity * usage_percentage }

/-- All fragments fragment_abstraction.create_fragment_file writes for a task
table. Lines 25-33 of the script compute `fragments_per_vm` with no
divisibility check: there is no rejection and no truncation report. -/
def fa_make_fragments (tasks : List TaskRow) (usage_percentage : ℚ)
    (duration_hours : ℚ) : List FAFragment :=
  (tasks.map
      (fa_fragments_for_vm usage_percentage
        (fragments_per_vm duration_hours).toNat)).flatten

/-- fragment_abstraction.create_fragment_file, end to end: its only product
is the fragment table. -/
def fa_create_fragment_file (input : Option InputTable) (gen : ℕ → ℕ)
    (usage_percentage duration_hours : ℚ) : List FAFragment :=
  fa_make_fragments (fa_read_task_df input gen) usage_percentage duration_hours

/-- One row of the Excel "VMs" sheet read by fragment_file_maker.py: the
three columns it requires. -/
structure ExcelRow where
  cpus_vm_is_using : Cell
  cpu_utilization_mhz : Cell
  total_cpu_capacity_mhz : Cell
  deriving DecidableEq, Repr

/-- The Excel sheet: column names plus rows. -/
structure ExcelTable where
  columns : List String
  rows : List ExcelRow
  deriving Repr

/-- `required_columns` of fragment_file_maker.py (line 40). -/
def fm_required_columns : List String :=
  ["CPUs VM is using", "CPU Utilization(MHz)", "Total CPU Capacity (MHz)"]

/-- One output fragment of fragment_file_maker.py. -/
structure FMFragment where
  id : String
  duration : ℤ
  cpu_count : ℤ
  cpu_usage : ℚ
  deriving DecidableEq, Repr

/-- The fixed candidate durations of `random.choice([300000, 600000, 900000])`
(line 78 of fragment_file_maker.py). -/
def duration_choices : List ℤ := [300000, 600000, 900000]

/-- One draw of `random.choice([300000, 600000, 900000])`. -/
def choose_duration : Fin 3 → ℤ
  | 0 => 300000
  | 1 => 600000
  | 2 => 900000

/-- The fragment built for row `i` (0-based) of the sheet (lines 75-81):
id is the original row number `i + 1` as a string; cpu_count is the
"CPUs VM is using" cell coerced (non-numeric and missing become 1) and cast
to int32; cpu_usage is the "CPU Utilization(MHz)" cell coerced (non-numeric
and missing become 0). -/
def fm_fragment (gen : ℕ → Fin 3) (i : ℕ) (row : ExcelRow) : FMFragment :=
  { id := toString (i + 1)
    duration := choose_duration (gen i)
    cpu_count := truncToInt (coerceFill 1 row.cpus_vm_is_using)
    cpu_usage := coerceFill 0 row.cpu_utilization_mhz }

/-- The fragment list for the rows starting at index `i`. -/
def fm_fragments_from (gen : ℕ → Fin 3) : ℕ → List ExcelRow → List FMFragment
  | _, [] => []
  | i, row :: rest => fm_fragment gen i row :: fm_fragments_from gen (i + 1) rest

/-- fragment_file_maker.create_fragment_file: aborts returning None (writing
nothing) when a required column is missing (lines 43-46), otherwise builds
one fragment per sheet row. -/
def fm_create_fragment_file (gen : ℕ → Fin 3) (input : ExcelTable) :
    Option (List FMFragment) :=
  if missing_columns fm_required_columns input.columns = [] then
    some (fm_fragments_from gen 0 input.rows)
  else none

/-- One row of the source CSV as used by task_file_maker.convert_csv_to_parquet:
its original row number (index + 1) and the CPU and Mem (MB) cells. -/
structure CsvRow where
  original_row : ℕ
  cpu : Cell
  mem_mb : Cell
  deriving DecidableEq, Repr

/-- One record of the tasks table task_file_maker.py writes. -/
structure TaskOutRow where
  id : String
  submission_time : ℤ
  duration : ℤ
  cpu_count : ℤ
  cpu_capacity : ℚ
  mem_capacity : ℤ
  deriving DecidableEq, Repr

/-- The record built for one selected CSV row (lines 113-121 of
task_file_maker.py). `timestamp` is
`int(strptime("2013-08-12 13:35:46").timestamp() * 1000)`, a constant of the
run that depends on the local timezone, so it is a parameter here. The CPU
cell is coerced with fillna(2) and cast to int32, the Mem (MB) cell with
fillna(4096) and cast to int64; duration and cpu_capacity are the literal
constants 2592252000 and 2500.0. -/
def task_out_row (timestamp : ℤ) (r : CsvRow) : TaskOutRow :=
  { id := toString r.original_row
    submission_time := timestamp
    duration := 2592252000
    cpu_count := truncToInt (coerceFill 2 r.cpu)
    cpu_capacity := 2500
    mem_capacity := truncToInt (coerceFill 4096 r.mem_mb) }

/-- The task table written for the selected rows (the RUTH filter and the
random subset only choose WHICH rows appear here), sorted by id
(`task_df.sort_values("id")`, line 123). -/
def task_make_table (timestamp : ℤ) (rows : List CsvRow) : List TaskOutRow :=
  (rows.map (task_out_row timestamp)).mergeSort (fun a b => a.id ≤ b.id)

/-- Modelled from the spec (claim C1), for comparison with the code: the
spec's per-id match flag compares the per-id SUM of fragment cpu_usage
values against `cpu_capacity * expected_fraction` within the caller-supplied
tolerance. -/
def spec_total_usage_flag (tasks : List TaskRow) (fragments : List FVFragment)
    (expected_fraction tolerance : ℚ) (vm_id : String) : Bool :=
  match tasks.find? (fun t => t.id = vm_id) with
  | none => false
  | some vm =>
    |((fv_group fragments vm_id).map (fun f => f.cpu_usage)).sum
        - vm.cpu_capacity * expected_fraction| < tolerance

/-! Helper lemmas shared by the claim theorems. -/

theorem mem_fv_make_fragments {tasks : List TaskRow} {u h : ℚ} {f : FVFragment} :
    f ∈ fv_make_fragments tasks u h ↔
      ∃ vm ∈ tasks, f ∈ fv_fragments_for_vm u (fragments_per_vm h).toNat vm := by
  simp [fv_make_fragments]

theorem mem_fa_make_fragments {tasks : List TaskRow} {u h : ℚ} {f : FAFragment} :
    f ∈ fa_make_fragments tasks u h ↔
      ∃ vm ∈ tasks, f ∈ fa_fragments_for_vm u (fragments_per_vm h).toNat vm := by
  simp [fa_make_fragments]

theorem fv_validation_entry_eq_none {tasks : List TaskRow}
    {fragments : List FVFragment} {u : ℚ} {n : ℤ} {k : String} :
    fv_validation_entry tasks fragments u n k = none ↔
      tasks.find? (fun t => t.id = k) = none := by
  unfold fv_validation_entry
  cases tasks.find? (fun t => t.id = k) <;> simp

theorem fv_validate_keys_eq_none {tasks : List TaskRow}
    {fragments : List FVFragment} {u : ℚ} {n : ℤ} :
    ∀ keys : List String,
      fv_validate_keys tasks fragments u n keys = none ↔
        ∃ k ∈ keys, fv_validation_entry tasks fragments u n k = none := by
  intro keys
  induction keys with
  | nil => simp [fv_validate_keys]
  | cons a t ih =>
    rw [fv_validate_keys]
    cases h1 : fv_validation_entry tasks fragments u n a <;>
      cases h2 : fv_validate_keys tasks fragments u n t <;>
        simp_all

theorem fv_validate_keys_some_mem {tasks : List TaskRow}
    {fragments : List FVFragment} {u : ℚ} {n : ℤ} :
    ∀ keys : List String, ∀ rs : List ValidationResult,
      fv_validate_keys tasks fragments u n keys = some rs →
        ∀ r ∈ rs, ∃ k ∈ keys,
          fv_validation_entry tasks fragments u n k = some r := by
  intro keys
  induction keys with
  | nil =>
    intro rs h r hr
    rw [fv_validate_keys] at h
    cases h
    simp at hr
  | cons a t ih =>
    intro rs h r hr
    rw [fv_validate_keys] at h
    cases h1 : fv_validation_entry tasks fragments u n a <;>
      cases h2 : fv_validate_keys tasks fragments u n t <;>
        rw [h1, h2] at h <;> cases h
    rename_i r1 rs1
    rcases List.mem_cons.mp hr with hr1 | hr2
    · exact ⟨a, List.mem_cons_self a t, by rw [h1, hr1]⟩
    · obtain ⟨k, hk, hk2⟩ := ih rs1 h2 r hr2
      exact ⟨k, List.mem_cons_of_mem a hk, hk2⟩

theorem fv_validate_keys_some_length {tasks : List TaskRow}
    {fragments : List FVFragment} {u : ℚ} {n : ℤ} :
    ∀ keys : List String, ∀ rs : List ValidationResult,
      fv_validate_keys tasks fragments u n keys = some rs →
        rs.length = keys.length := by
  intro keys
  induction keys with
  | nil =>
    intro rs h
    rw [fv_validate_keys] at h
    cases h
    rfl
  | cons a t ih =>
    intro rs h
    rw [fv_validate_keys] at h
    cases h1 : fv_validation_entry tasks fragments u n a <;>
      cases h2 : fv_validate_keys tasks fragments u n t <;>
        rw [h1, h2] at h <;> cases h
    rename_i r1 rs1
    simp [ih rs1 h2]

theorem mem_fv_group_keys {fragments : List FVFragment} {k : String} :
    k ∈ fv_group_keys fragments ↔ k ∈ fragments.map (fun f => f.id) := by
  rw [fv_group_keys, List.mem_mergeSort, List.mem_dedup]

theorem fv_validation_entry_some_spec {tasks : List TaskRow}
    {fragments : List FVFragment} {u : ℚ} {n : ℤ} {k : String}
    {r : ValidationResult}
    (h : fv_validation_entry tasks fragments u n k = some r) :
    r.vm_id = k ∧
    r.actual_fragments = ((fv_group fragments k).length : ℤ) ∧
    r.actual_duration_ms = ((fv_group fragments k).map (fun f => f.duration)).sum ∧
    r.actual_cpu_usage = ((fv_group fragments k).map (fun f => f.cpu_usage)).sum
        / ((fv_group fragments k).length : ℚ) ∧
    (r.fragments_match = true ↔ r.expected_fragments = r.actual_fragments) ∧
    (r.duration_match = true ↔ r.expected_duration_ms = r.actual_duration_ms) ∧
    (r.cpu_usage_match = true ↔
        |r.expected_cpu_usage - r.actual_cpu_usage| < 1/1000) ∧
    r.expected_fragments = n ∧
    r.expected_duration_ms = fragment_duration_ms * n ∧
    ∃ t, tasks.find? (fun t => t.id = k) = some t ∧
        r.expected_cpu_usage = t.cpu_capacity * u := by
  unfold fv_validation_entry at h
  cases hf : tasks.find? (fun t => t.id = k) with
  | none => rw [hf] at h; cases h
  | some vm =>
    rw [hf] at h
    simp only [Option.some.injEq] at h
    subst h
    refine ⟨rfl, rfl, rfl, rfl, ?_, ?_, ?_, rfl, rfl, vm, rfl, rfl⟩
    · simp
    · simp
    · simp

theorem fm_fragments_from_congr (g1 g2 : ℕ → Fin 3) :
    ∀ (rows : List ExcelRow) (i : ℕ),
      (∀ j, j < rows.length → g1 (i + j) = g2 (i + j)) →
        fm_fragments_from g1 i rows = fm_fragments_from g2 i rows := by
  intro rows
  induction rows with
  | nil => intro i _; rfl
  | cons r rest ih =>
    intro i hg
    rw [fm_fragments_from, fm_fragments_from]
    have hhead : g1 i = g2 i := by
      have := hg 0 (by simp)
      simpa using this
    have htail : fm_fragments_from g1 (i + 1) rest
        = fm_fragments_from g2 (i + 1) rest := by
      apply ih
      intro j hj
      have hidx : i + 1 + j = i + (j + 1) := by omega
      rw [hidx]
      exact hg (j + 1) (by simpa using Nat.succ_lt_succ hj)
    rw [fm_fragment, fm_fragment, hhead, htail]

theorem fm_fragments_from_length (gen : ℕ → Fin 3) :
    ∀ (rows : List ExcelRow) (i : ℕ),
      (fm_fragments_from gen i rows).length = rows.length := by
  intro rows
  induction rows with
  | nil => intro i; rfl
  | cons r rest ih =>
    intro i
    rw [fm_fragments_from]
    simp [ih]

theorem fm_fragments_from_getq (gen : ℕ → Fin 3) :
    ∀ (rows : List ExcelRow) (i j : ℕ),
      (fm_fragments_from gen i rows).get? j
        = (rows.get? j).map (fun r => fm_fragment gen (i + j) r) := by
  intro rows
  induction rows with
  | nil => intro i j; simp [fm_fragments_from]
  | cons r rest ih =>
    intro i j
    cases j with
    | zero => simp [fm_fragments_from]
    | succ j =>
      rw [fm_fragments_from]
      simp only [List.get?]
      rw [ih (i + 1) j]
      have hidx : i + 1 + j = i + (j + 1) := by omega
      rw [hidx]

theorem fm_fragments_from_duration (gen : ℕ → Fin 3) :
    ∀ (rows : List ExcelRow) (i : ℕ),
      ∀ f ∈ fm_fragments_from gen i rows, f.duration ∈ duration_choices := by
  have hc : ∀ k : Fin 3, choose_duration k ∈ duration_choices := by decide
  intro rows
  induction rows with
  | nil => intro i f hf; cases hf
  | cons r rest ih =>
    intro i f hf
    rw [fm_fragments_from] at hf
    rcases List.mem_cons.mp hf with h1 | h2
    · rw [h1]
      exact hc (gen i)
    · exact ih (i + 1) f h2

/-! Claim theorems. -/

/-- C1, counterexample: on a resource of capacity 1000 with usage fraction
1/10 and two fragments of cpu_usage 100 each, the validator's overall result
is a pass (it compares the MEAN, 100, within its hard-coded 0.001 tolerance),
while the comparison the claim describes — per-id SUM of cpu_usage, here 200,
against cpu_capacity * expected_fraction = 100 within the caller-supplied
tolerance — fails. -/
theorem C1_counterexample :
    ((fv_validate [⟨"vm-1", 4, 1000⟩]
          [⟨"vm-1", 300000, 4, 100⟩, ⟨"vm-1", 300000, 4, 100⟩]
          (1/10) 2).map fv_all_pass = some true) ∧
    ((fv_group [⟨"vm-1", 300000, 4, 100⟩, ⟨"vm-1", 300000, 4, 100⟩]
          "vm-1").map (fun f => f.cpu_usage)).sum = 200 ∧
    ((⟨"vm-1", 4, 1000⟩ : TaskRow).cpu_capacity * (1/10) : ℚ) = 100 ∧
    spec_total_usage_flag [⟨"vm-1", 4, 1000⟩]
        [⟨"vm-1", 300000, 4, 100⟩, ⟨"vm-1", 300000, 4, 100⟩]
        (1/10) (1/1000) "vm-1" = false := by
  have hkeys : fv_group_keys
      [⟨"vm-1", 300000, 4, 100⟩, ⟨"vm-1", 300000, 4, 100⟩] = ["vm-1"] := by
    rw [fv_group_keys]
    simp [List.dedup_cons_of_mem, List.mergeSort]
  refine ⟨?_, ?_, by norm_num, ?_⟩
  · rw [fv_validate, if_neg (by decide), hkeys, fv_validate_keys,
      fv_validate_keys]
    rw [fv_validation_entry]
    simp only [List.find?, fv_group, List.filter]
    norm_num [fv_all_pass, fragment_duration_ms, List.all]
  · simp [fv_group, List.filter]
    norm_num
  · rw [spec_total_usage_flag]
    simp only [List.find?]
    norm_num [fv_group, List.filter]

/-- C1, amended: the validator computes per id the fragment count, the sum of
durations, and the MEAN of the group's cpu_usage values; the cpu-usage flag
compares that mean against cpu_capacity * usage_percentage within the
hard-coded absolute tolerance 0.001; the overall boolean is true iff every
report entry's three match flags are true. -/
theorem C1_validator_mean_and_all_pass (tasks : List TaskRow)
    (fragments : List FVFragment) (usage_percentage : ℚ)
    (expected_fragments : ℤ) (rs : List ValidationResult)
    (h : fv_validate tasks fragments usage_percentage expected_fragments
        = some rs) :
    (fv_all_pass rs = true ↔ ∀ r ∈ rs,
        r.fragments_match = true ∧ r.duration_match = true ∧
        r.cpu_usage_match = true) ∧
    ∀ r ∈ rs,
      r.actual_fragments = ((fv_group fragments r.vm_id).length : ℤ) ∧
      r.actual_cpu_usage
          = ((fv_group fragments r.vm_id).map (fun f => f.cpu_usage)).sum
              / ((fv_group fragments r.vm_id).length : ℚ) ∧
      (r.cpu_usage_match = true ↔
          |r.expected_cpu_usage - r.actual_cpu_usage| < 1/1000) ∧
      ∃ t, tasks.find? (fun x => x.id = r.vm_id) = some t ∧
          r.expected_cpu_usage = t.cpu_capacity * usage_percentage := by
  constructor
  · rw [fv_all_pass]
    simp only [Bool.and_eq_true, List.all_eq_true]
    constructor
    · intro ⟨⟨h1, h2⟩, h3⟩ r hr
      exact ⟨h1 r hr, h2 r hr, h3 r hr⟩
    · intro hall
      exact ⟨⟨fun r hr => (hall r hr).1, fun r hr => (hall r hr).2.1⟩,
        fun r hr => (hall r hr).2.2⟩
  · intro r hr
    rw [fv_validate] at h
    by_cases hemp : fragments = []
    · rw [if_pos hemp] at h
      cases h
    · rw [if_neg hemp] at h
      obtain ⟨k, _, hk⟩ := fv_validate_keys_some_mem _ rs h r hr
      obtain ⟨hid, hf, _, hm, _, _, hcu, _, _, t, ht, he⟩ :=
        fv_validation_entry_some_spec hk
      subst hid
      exact ⟨hf, hm, hcu, t, ht, he⟩

/-- C1, witness for the amended theorem at a concrete validation run. -/
theorem C1_witness :
    (fv_validate [⟨"vm-1", 4, 1000⟩]
        [⟨"vm-1", 300000, 4, 100⟩, ⟨"vm-1", 300000, 4, 100⟩] (1/10) 2
      = some [⟨"vm-1", 2, 2, true, 600000, 600000, true, 100, 100, true⟩]) ∧
    (fv_all_pass [⟨"vm-1", 2, 2, true, 600000, 600000, true, 100, 100, true⟩]
        = true ↔
      ∀ r ∈ [(⟨"vm-1", 2, 2, true, 600000, 600000, true, 100, 100,
          true⟩ : ValidationResult)],
        r.fragments_match = true ∧ r.duration_match = true ∧
        r.cpu_usage_match = true) := by
  have hv : fv_validate [⟨"vm-1", 4, 1000⟩]
      [⟨"vm-1", 300000, 4, 100⟩, ⟨"vm-1", 300000, 4, 100⟩] (1/10) 2
      = some [⟨"vm-1", 2, 2, true, 600000, 600000, true, 100, 100, true⟩] := by
    have hkeys : fv_group_keys
        [⟨"vm-1", 300000, 4, 100⟩, ⟨"vm-1", 300000, 4, 100⟩] = ["vm-1"] := by
      rw [fv_group_keys]
      simp [List.dedup_cons_of_mem, List.mergeSort]
    rw [fv_validate, if_neg (by decide), hkeys, fv_validate_keys,
      fv_validate_keys]
    rw [fv_validation_entry]
    simp only [List.find?, fv_group, List.filter]
    norm_num [fragment_duration_ms]
  exact ⟨hv, (C1_validator_mean_and_all_pass _ _ _ _ _ hv).1⟩

/-- C2: at duration_hours = 24 (coverage 86400000 ms) with 300000 ms slices,
each resource record gets exactly 288 fragments, each of duration 300000,
whose durations sum to exactly 86400000; the whole output is the
concatenation of these per-record blocks. -/
theorem C2_fixed_mode_24h (usage_percentage : ℚ) (vm : TaskRow) :
    fragments_per_vm 24 = 288 ∧
    (fv_fragments_for_vm usage_percentage (fragments_per_vm 24).toNat vm).length = 288 ∧
    (∀ f ∈ fv_fragments_for_vm usage_percentage (fragments_per_vm 24).toNat vm,
        f.duration = 300000) ∧
    ((fv_fragments_for_vm usage_percentage (fragments_per_vm 24).toNat vm).map
        (fun f => f.duration)).sum = 86400000 ∧
    (∀ tasks : List TaskRow, ∀ duration_hours : ℚ,
        fv_make_fragments tasks usage_percentage duration_hours
          = (tasks.map (fv_fragments_for_vm usage_percentage
              (fragments_per_vm duration_hours).toNat)).flatten) := by
  have h24 : fragments_per_vm 24 = 288 := by
    norm_num [fragments_per_vm, total_duration_ms]
  refine ⟨h24, ?_, ?_, ?_, fun _ _ => rfl⟩
  · simp only [fv_fragments_for_vm, List.length_replicate, h24]
    rfl
  · intro f hf
    simp only [fv_fragments_for_vm, List.mem_replicate] at hf
    rw [hf.2]
    rfl
  · simp only [fv_fragments_for_vm, List.map_replicate, List.sum_replicate,
      smul_eq_mul, h24, fragment_duration_ms]
    rfl

/-- C2, witness at a concrete record and fragment. -/
theorem C2_witness :
    ((⟨"vm-1", 300000, 4, 100⟩ : FVFragment) ∈
        fv_fragments_for_vm (1/10) (fragments_per_vm 24).toNat
          ⟨"vm-1", 4, 1000⟩) ∧
    (⟨"vm-1", 300000, 4, 100⟩ : FVFragment).duration = 300000 := by
  have hmem : (⟨"vm-1", 300000, 4, 100⟩ : FVFragment) ∈
      fv_fragments_for_vm (1/10) (fragments_per_vm 24).toNat
        ⟨"vm-1", 4, 1000⟩ := by
    have h24 : fragments_per_vm 24 = 288 := by
      norm_num [fragments_per_vm, total_duration_ms]
    simp only [fv_fragments_for_vm, List.mem_replicate, h24, fragment_duration_ms]
    refine ⟨by norm_num, ?_⟩
    norm_num
  exact ⟨hmem,
    (C2_fixed_mode_24h (1/10) ⟨"vm-1", 4, 1000⟩).2.2.1 _ hmem⟩

/-- C3: in fixed mode every fragment emitted for a record carries
cpu_usage = cpu_capacity * usage_percentage exactly, identical across the
record's fragments, in both fragment_validator.py and
fragment_abstraction.py. -/
theorem C3_fixed_mode_usage_exact (usage_percentage : ℚ) (n : ℕ) (vm : TaskRow) :
    (∀ f ∈ fv_fragments_for_vm usage_percentage n vm,
        f.cpu_usage = vm.cpu_capacity * usage_percentage) ∧
    (∀ f ∈ fa_fragments_for_vm usage_percentage n vm,
        f.cpu_usage = vm.cpu_capacity * usage_percentage) ∧
    (∀ f g, f ∈ fv_fragments_for_vm usage_percentage n vm →
        g ∈ fv_fragments_for_vm usage_percentage n vm →
        f.cpu_usage = g.cpu_usage) := by
  refine ⟨?_, ?_, ?_⟩
  · intro f hf
    simp only [fv_fragments_for_vm, List.mem_replicate] at hf
    rw [hf.2]
  · intro f hf
    simp only [fa_fragments_for_vm, List.mem_replicate] at hf
    rw [hf.2]
  · intro f g hf hg
    simp only [fv_fragments_for_vm, List.mem_replicate] at hf hg
    rw [hf.2, hg.2]

/-- C3, witness at a concrete record and fragment. -/
theorem C3_witness :
    ((⟨"vm-1", 300000, 4, 100⟩ : FVFragment) ∈
        fv_fragments_for_vm (1/10) 2 ⟨"vm-1", 4, 1000⟩) ∧
    (⟨"vm-1", 300000, 4, 100⟩ : FVFragment).cpu_usage
      = (⟨"vm-1", 4, 1000⟩ : TaskRow).cpu_capacity * (1/10) := by
  have hmem : (⟨"vm-1", 300000, 4, 100⟩ : FVFragment) ∈
      fv_fragments_for_vm (1/10) 2 ⟨"vm-1", 4, 1000⟩ := by
    simp only [fv_fragments_for_vm, List.mem_replicate, fragment_duration_ms]
    refine ⟨by norm_num, ?_⟩
    norm_num
  exact ⟨hmem, (C3_fixed_mode_usage_exact (1/10) 2 ⟨"vm-1", 4, 1000⟩).1 _ hmem⟩

/-- C4, counterexample: the fragment table written by fragment_abstraction.py
declares its third field cpu_count with dtype STRING, not int32, and every
row stores a constant text there. -/
theorem C4_counterexample :
    fragment_abstraction_schema.get? 2
      = some { name := "cpu_count", dtype := PaType.string, nullable := false } ∧
    PaType.string ≠ PaType.int32 ∧
    (fa_fragments_for_vm (1/10) 1 ⟨"vm-1", 4, 1000⟩).map (fun f => f.cpu_count)
      = [fa_cpu_count_text] := by
  exact ⟨rfl, by decide, rfl⟩

/-- C4, amended: all three fragment writers use exactly four non-null fields
in the order id, duration, cpu_count, cpu_usage with id string, duration
int64 and cpu_usage float64; fragment_validator.py and
fragment_file_maker.py declare cpu_count as int32, while
fragment_abstraction.py declares it as a string and stores a constant text
in every row. -/
theorem C4_fragment_schemas :
    fragment_validator_schema.map (fun f => f.name)
        = ["id", "duration", "cpu_count", "cpu_usage"] ∧
    fragment_validator_schema.map (fun f => f.dtype)
        = [PaType.string, PaType.int64, PaType.int32, PaType.float64] ∧
    fragment_file_maker_schema = fragment_validator_schema ∧
    fragment_validator_schema.all (fun f => f.nullable = false) = true ∧
    fragment_abstraction_schema.map (fun f => f.name)
        = ["id", "duration", "cpu_count", "cpu_usage"] ∧
    fragment_abstraction_schema.map (fun f => f.dtype)
        = [PaType.string, PaType.int64, PaType.string, PaType.float64] ∧
    fragment_abstraction_schema.all (fun f => f.nullable = false) = true ∧
    ∀ (tasks : List TaskRow) (u h : ℚ), ∀ f ∈ fa_make_fragments tasks u h,
      f.cpu_count = fa_cpu_count_text := by
  refine ⟨rfl, rfl, rfl, rfl, rfl, rfl, rfl, ?_⟩
  intro tasks u h f hf
  obtain ⟨vm, _, hf⟩ := mem_fa_make_fragments.mp hf
  simp only [fa_fragments_for_vm, List.mem_replicate] at hf
  rw [hf.2]

/-- C4, witness at a concrete abstraction-variant fragment. -/
theorem C4_witness :
    ((⟨"vm-1", 300000, fa_cpu_count_text, 100⟩ : FAFragment)
        ∈ fa_make_fragments [⟨"vm-1", 4, 1000⟩] (1/10) (1/12)) ∧
    (⟨"vm-1", 300000, fa_cpu_count_text, 100⟩ : FAFragment).cpu_count
      = fa_cpu_count_text := by
  have hmem : (⟨"vm-1", 300000, fa_cpu_count_text, 100⟩ : FAFragment)
      ∈ fa_make_fragments [⟨"vm-1", 4, 1000⟩] (1/10) (1/12) := by
    have h1 : fragments_per_vm (1/12) = 1 := by
      norm_num [fragments_per_vm, total_duration_ms]
    rw [mem_fa_make_fragments]
    refine ⟨⟨"vm-1", 4, 1000⟩, by simp, ?_⟩
    rw [h1]
    simp only [fa_fragments_for_vm, List.mem_replicate, fragment_duration_ms]
    refine ⟨by norm_num, ?_⟩
    norm_num
  exact ⟨hmem,
    C4_fragment_schemas.2.2.2.2.2.2.2 [⟨"vm-1", 4, 1000⟩] (1/10) (1/12) _ hmem⟩

/-- C5, counterexample: on an input table whose columns lack cpu_count,
fragment_validator.create_fragment_file does not abort: it substitutes the
10 synthetic VMs and still writes a fragment table (here 120 fragments at
duration_hours = 1). -/
theorem C5_counterexample :
    missing_columns fv_required_columns ["id", "cpu_capacity"] = ["cpu_count"] ∧
    (fv_create_fragment_file (some ⟨["id", "cpu_capacity"], []⟩)
        (fun _ => 0) (1/10) 1).task_df
      = generate_synthetic_vms (fun _ => 0) 10 ∧
    (fv_create_fragment_file (some ⟨["id", "cpu_capacity"], []⟩)
        (fun _ => 0) (1/10) 1).fragments.length = 120 := by
  have hmiss : missing_columns fv_required_columns ["id", "cpu_capacity"]
      = ["cpu_count"] := by decide
  have h1 : fragments_per_vm 1 = 12 := by
    norm_num [fragments_per_vm, total_duration_ms]
  have htask : (fv_create_fragment_file (some ⟨["id", "cpu_capacity"], []⟩)
      (fun _ => 0) (1/10) 1).task_df
      = generate_synthetic_vms (fun _ => 0) 10 := by
    rw [fv_create_fragment_file]
    simp only [fv_read_task_df]
    rw [if_neg (by decide)]
  refine ⟨hmiss, htask, ?_⟩
  rw [fv_create_fragment_file]
  simp only [fv_read_task_df]
  rw [if_neg (by decide)]
  rw [fv_make_fragments, List.length_flatten, List.map_map]
  have : (List.length ∘ fv_fragments_for_vm (1/10) (fragments_per_vm 1).toNat)
      = fun _ => 12 := by
    funext vm
    simp [fv_fragments_for_vm, h1]
  rw [this, List.map_const']
  simp [generate_synthetic_vms]

/-- C5, amended: on a missing required column, fragment_file_maker.py aborts
returning None without writing output, while
fragment_validator.create_fragment_file behaves exactly as if no input were
given: it substitutes 10 synthetic VMs and continues to write output. -/
theorem C5_missing_column_behaviour :
    (∀ (gen : ℕ → Fin 3) (tbl : ExcelTable),
        missing_columns fm_required_columns tbl.columns ≠ [] →
          fm_create_fragment_file gen tbl = none) ∧
    (∀ (tbl : InputTable) (gen : ℕ → ℕ) (u h : ℚ),
        missing_columns fv_required_columns tbl.columns ≠ [] →
          fv_create_fragment_file (some tbl) gen u h
            = fv_create_fragment_file none gen u h) := by
  constructor
  · intro gen tbl hm
    rw [fm_create_fragment_file, if_neg hm]
  · intro tbl gen u h hm
    rw [fv_create_fragment_file, fv_create_fragment_file]
    simp only [fv_read_task_df]
    rw [if_neg hm]

/-- C5, witness at concrete tables missing a required column. -/
theorem C5_witness :
    (missing_columns fm_required_columns [] ≠ []) ∧
    fm_create_fragment_file (fun _ => (0 : Fin 3)) ⟨[], []⟩ = none ∧
    (missing_columns fv_required_columns ["id", "cpu_capacity"] ≠ []) ∧
    fv_create_fragment_file (some ⟨["id", "cpu_capacity"], []⟩)
        (fun _ => 0) (1/10) 24
      = fv_create_fragment_file none (fun _ => 0) (1/10) 24 := by
  refine ⟨by decide, ?_, by decide, ?_⟩
  · exact C5_missing_column_behaviour.1 _ _ (by decide)
  · exact C5_missing_column_behaviour.2 _ _ _ _ (by decide)

/-- C6, counterexample: on a fragment whose id X is absent from the resource
table, the validator crashes (the IndexError modelled by `none`) instead of
flagging it in a report; on a resource table with ids A and B whose fragment
table covers only A, the run succeeds but the report's single entry is for A
— the zero-fragment resource B is silently absent, never flagged; and with
no fragments at all the script crashes (KeyError, modelled `none`) before
any report exists. -/
theorem C6_counterexample :
    fv_validate [⟨"A", 2, 1000⟩] [⟨"X", 300000, 2, 5⟩] (1/10) 288 = none ∧
    (fv_validate [⟨"A", 2, 1000⟩, ⟨"B", 2, 1000⟩] [⟨"A", 300000, 2, 100⟩]
        (1/10) 1
      = some [⟨"A", 1, 1, true, 300000, 300000, true, 100, 100, true⟩]) ∧
    (⟨"A", 1, 1, true, 300000, 300000, true, 100, 100,
        true⟩ : ValidationResult).vm_id ≠ "B" ∧
    fv_validate [⟨"A", 2, 1000⟩] [] (1/10) 288 = none := by
  refine ⟨?_, ?_, by decide, ?_⟩
  · have hkeys : fv_group_keys [⟨"X", 300000, 2, 5⟩] = ["X"] := by
      rw [fv_group_keys]
      simp [List.mergeSort]
    rw [fv_validate, if_neg (by decide), hkeys, fv_validate_keys,
      fv_validate_keys]
    rw [fv_validation_entry]
    simp [List.find?]
  · have hkeys : fv_group_keys [⟨"A", 300000, 2, 100⟩] = ["A"] := by
      rw [fv_group_keys]
      simp [List.mergeSort]
    rw [fv_validate, if_neg (by decide), hkeys, fv_validate_keys,
      fv_validate_keys]
    rw [fv_validation_entry]
    simp only [List.find?, fv_group, List.filter]
    norm_num [fragment_duration_ms]
  · rw [fv_validate, if_pos rfl]

/-- C6, amended: the validation pass crashes (modelled `none`) exactly when
the fragment table is empty (KeyError: the empty DataFrame has no columns)
or some fragment's id occurs in no task row (IndexError at .iloc[0]) —
orphans are never flagged in a report; any produced report is nonempty, its
overall result is then computed (line 136 never raises on it), and every
report entry's id comes from some fragment, so a resource id with zero
fragments is silently absent from the report. -/
theorem C6_validator_orphans_crash_and_zero_silent :
    (∀ (tasks : List TaskRow) (fragments : List FVFragment) (u : ℚ) (n : ℤ),
        fv_validate tasks fragments u n = none ↔
          (fragments = [] ∨ ∃ f ∈ fragments, ∀ t ∈ tasks, t.id ≠ f.id)) ∧
    (∀ (tasks : List TaskRow) (fragments : List FVFragment) (u : ℚ) (n : ℤ)
        (rs : List ValidationResult),
        fv_validate tasks fragments u n = some rs →
          rs ≠ [] ∧
          fv_overall_result rs = some (fv_all_pass rs) ∧
          ∀ r ∈ rs, ∃ f ∈ fragments, f.id = r.vm_id) := by
  have hmain : ∀ (tasks : List TaskRow) (fragments : List FVFragment)
      (u : ℚ) (n : ℤ),
      fragments ≠ [] →
        (fv_validate_keys tasks fragments u n (fv_group_keys fragments) = none
          ↔ ∃ f ∈ fragments, ∀ t ∈ tasks, t.id ≠ f.id) := by
    intro tasks fragments u n _
    rw [fv_validate_keys_eq_none]
    constructor
    · intro ⟨k, hk, hke⟩
      rw [fv_validation_entry_eq_none, List.find?_eq_none] at hke
      obtain ⟨f, hf, hfk⟩ := List.mem_map.mp (mem_fv_group_keys.mp hk)
      refine ⟨f, hf, fun t ht => ?_⟩
      have := hke t ht
      simp only [decide_eq_true_eq] at this
      rw [hfk]
      exact this
    · intro ⟨f, hf, hall⟩
      refine ⟨f.id, mem_fv_group_keys.mpr (List.mem_map.mpr ⟨f, hf, rfl⟩), ?_⟩
      rw [fv_validation_entry_eq_none, List.find?_eq_none]
      intro t ht
      simp only [decide_eq_true_eq]
      exact hall t ht
  constructor
  · intro tasks fragments u n
    rw [fv_validate]
    by_cases hemp : fragments = []
    · rw [if_pos hemp]
      simp [hemp]
    · rw [if_neg hemp, hmain tasks fragments u n hemp]
      constructor
      · intro hex
        exact Or.inr hex
      · intro hor
        rcases hor with hl | hr
        · exact absurd hl hemp
        · exact hr
  · intro tasks fragments u n rs h
    rw [fv_validate] at h
    by_cases hemp : fragments = []
    · rw [if_pos hemp] at h
      cases h
    · rw [if_neg hemp] at h
      have hne : rs ≠ [] := by
        intro hnil
        have hlen := fv_validate_keys_some_length _ rs h
        rw [hnil] at hlen
        obtain ⟨f, hf⟩ := List.exists_mem_of_ne_nil fragments hemp
        have hkmem : f.id ∈ fv_group_keys fragments :=
          mem_fv_group_keys.mpr (List.mem_map.mpr ⟨f, hf, rfl⟩)
        have : fv_group_keys fragments = [] :=
          List.eq_nil_of_length_eq_zero hlen.symm
        rw [this] at hkmem
        cases hkmem
      refine ⟨hne, by rw [fv_overall_result, if_neg hne], ?_⟩
      intro r hr
      obtain ⟨k, hk, hke⟩ := fv_validate_keys_some_mem _ rs h r hr
      obtain ⟨hid, _⟩ := fv_validation_entry_some_spec hke
      obtain ⟨f, hf, hfk⟩ := List.mem_map.mp (mem_fv_group_keys.mp hk)
      exact ⟨f, hf, by rw [hfk, hid]⟩

/-- C6, witness for the amended theorem at a concrete validation run. -/
theorem C6_witness :
    (fv_validate [⟨"A", 2, 1000⟩, ⟨"B", 2, 1000⟩] [⟨"A", 300000, 2, 100⟩]
        (1/10) 1
      = some [⟨"A", 1, 1, true, 300000, 300000, true, 100, 100, true⟩]) ∧
    ([(⟨"A", 1, 1, true, 300000, 300000, true, 100, 100,
        true⟩ : ValidationResult)] : List ValidationResult) ≠ [] ∧
    fv_overall_result [⟨"A", 1, 1, true, 300000, 300000, true, 100, 100, true⟩]
      = some (fv_all_pass
          [⟨"A", 1, 1, true, 300000, 300000, true, 100, 100, true⟩]) ∧
    ∃ f ∈ [(⟨"A", 300000, 2, 100⟩ : FVFragment)],
      f.id = (⟨"A", 1, 1, true, 300000, 300000, true, 100, 100,
          true⟩ : ValidationResult).vm_id := by
  have hv : fv_validate [⟨"A", 2, 1000⟩, ⟨"B", 2, 1000⟩] [⟨"A", 300000, 2, 100⟩]
      (1/10) 1
      = some [⟨"A", 1, 1, true, 300000, 300000, true, 100, 100, true⟩] := by
    have hkeys : fv_group_keys [⟨"A", 300000, 2, 100⟩] = ["A"] := by
      rw [fv_group_keys]
      simp [List.mergeSort]
    rw [fv_validate, if_neg (by decide), hkeys, fv_validate_keys,
      fv_validate_keys]
    rw [fv_validation_entry]
    simp only [List.find?, fv_group, List.filter]
    norm_num [fragment_duration_ms]
  have hout := C6_validator_orphans_crash_and_zero_silent.2 _ _ (1/10) 1 _ hv
  exact ⟨hv, hout.1, hout.2.1, hout.2.2 _ (by simp)⟩

/-- C7, counterexample: at duration_hours = 1/8 the requested coverage is
450000 ms, which 300000 ms slices do not divide; fragment_abstraction.py
emits one 300000 ms fragment per record — fewer than the coverage requires —
and its output consists of nothing but the fragment table, so the truncation
goes unreported; the validator variant does set its warning at this
configuration. -/
theorem C7_counterexample :
    total_duration_ms (1/8) = 450000 ∧
    fragments_per_vm (1/8) = 1 ∧
    (fa_make_fragments [⟨"vm-1", 4, 1000⟩] (1/10) (1/8)).length = 1 ∧
    ((fa_make_fragments [⟨"vm-1", 4, 1000⟩] (1/10) (1/8)).map
        (fun f => f.duration)).sum = 300000 ∧
    ((300000 : ℤ) : ℚ) ≠ total_duration_ms (1/8) ∧
    fv_truncation_warning (1/8) = true := by
  have h1 : fragments_per_vm (1/8) = 1 := by
    norm_num [fragments_per_vm, total_duration_ms]
  have ht : total_duration_ms (1/8) = 450000 := by
    norm_num [total_duration_ms]
  refine ⟨ht, h1, ?_, ?_, by rw [ht]; norm_num, ?_⟩
  · rw [fa_make_fragments, h1]
    rfl
  · rw [fa_make_fragments, h1]
    simp [fa_fragments_for_vm, fragment_duration_ms]
  · rw [fv_truncation_warning, h1, ht]
    norm_num [fragment_duration_ms]

/-- C7, amended: fragment_validator.py reports (warns about) the truncation
exactly when the slice length does not exactly divide the coverage duration,
and then still emits the truncated count; fragment_abstraction.py always
emits the truncated count, with no rejection and no report. -/
theorem C7_truncation_behaviour :
    (∀ h : ℚ, fv_truncation_warning h = true ↔
        ¬ ∃ n : ℤ, total_duration_ms h = (n : ℚ) * 300000) ∧
    (∀ (tasks : List TaskRow) (u h : ℚ),
        (fa_make_fragments tasks u h).length
          = tasks.length * (fragments_per_vm h).toNat) := by
  constructor
  · intro h
    rw [fv_truncation_warning]
    simp only [decide_eq_true_eq, ne_eq, fragment_duration_ms]
    constructor
    · intro hne ⟨n, hn⟩
      apply hne
      have hq : total_duration_ms h / (300000 : ℚ) = (n : ℚ) := by
        rw [hn]
        field_simp
      rw [fragments_per_vm, hq]
      push_cast [Int.floor_intCast]
      rw [hn]
    · intro hex hcontra
      apply hex
      refine ⟨fragments_per_vm h, ?_⟩
      rw [← hcontra]
      push_cast
      ring
  · intro tasks u h
    rw [fa_make_fragments, List.length_flatten, List.map_map]
    have hc : (List.length ∘ fa_fragments_for_vm u (fragments_per_vm h).toNat)
        = fun _ => (fragments_per_vm h).toNat := by
      funext vm
      simp [fa_fragments_for_vm]
    rw [hc, List.map_const']
    simp [Nat.mul_comm]

/-- C7, witness for the amended theorem at a concrete record list. -/
theorem C7_witness :
    (fa_make_fragments [⟨"vm-1", 4, 1000⟩] (1/10) (1/8)).length
      = ([(⟨"vm-1", 4, 1000⟩ : TaskRow)]).length
          * (fragments_per_vm (1/8)).toNat :=
  C7_truncation_behaviour.2 [⟨"vm-1", 4, 1000⟩] (1/10) (1/8)

/-- C8, counterexample: fragment_file_maker.create_fragment_file takes no
seed; with every declared input identical (same sheet, same columns, same
rows) two runs differ when the process-global generator yields different
draws — here the single fragment's duration is 300000 in one run and 600000
in the other. -/
theorem C8_counterexample :
    ((fm_create_fragment_file (fun _ => (0 : Fin 3))
        ⟨fm_required_columns, [⟨Cell.num 2, Cell.num 100, Cell.num 2500⟩]⟩).map
      (List.map (fun f => f.duration)) = some [300000]) ∧
    ((fm_create_fragment_file (fun _ => (1 : Fin 3))
        ⟨fm_required_columns, [⟨Cell.num 2, Cell.num 100, Cell.num 2500⟩]⟩).map
      (List.map (fun f => f.duration)) = some [600000]) ∧
    fm_create_fragment_file (fun _ => (0 : Fin 3))
        ⟨fm_required_columns, [⟨Cell.num 2, Cell.num 100, Cell.num 2500⟩]⟩
      ≠ fm_create_fragment_file (fun _ => (1 : Fin 3))
        ⟨fm_required_columns, [⟨Cell.num 2, Cell.num 100, Cell.num 2500⟩]⟩ := by
  have h0 : (fm_create_fragment_file (fun _ => (0 : Fin 3))
      ⟨fm_required_columns, [⟨Cell.num 2, Cell.num 100, Cell.num 2500⟩]⟩).map
      (List.map (fun f => f.duration)) = some [300000] := by
    rw [fm_create_fragment_file, if_pos (by decide)]
    rfl
  have h1 : (fm_create_fragment_file (fun _ => (1 : Fin 3))
      ⟨fm_required_columns, [⟨Cell.num 2, Cell.num 100, Cell.num 2500⟩]⟩).map
      (List.map (fun f => f.duration)) = some [600000] := by
    rw [fm_create_fragment_file, if_pos (by decide)]
    rfl
  refine ⟨h0, h1, fun hcontra => ?_⟩
  rw [hcontra, h1] at h0
  cases h0

/-- C8, amended: the maker's output is determined by the input table together
with the global generator's draws: when the two draw sequences agree on
every row index, the two runs produce identical fragment tables. -/
theorem C8_same_draws_same_table (g1 g2 : ℕ → Fin 3) (tbl : ExcelTable)
    (h : ∀ i, i < tbl.rows.length → g1 i = g2 i) :
    fm_create_fragment_file g1 tbl = fm_create_fragment_file g2 tbl := by
  rw [fm_create_fragment_file, fm_create_fragment_file]
  by_cases hm : missing_columns fm_required_columns tbl.columns = []
  · rw [if_pos hm, if_pos hm]
    congr 1
    apply fm_fragments_from_congr
    intro j hj
    simpa using h j hj
  · rw [if_neg hm, if_neg hm]

/-- C8, witness: two draw sequences agreeing on the single row index produce
identical tables. -/
theorem C8_witness :
    fm_create_fragment_file (fun _ => (0 : Fin 3))
        ⟨fm_required_columns, [⟨Cell.num 2, Cell.num 100, Cell.num 2500⟩]⟩
      = fm_create_fragment_file (fun i => if i < 1 then (0 : Fin 3) else 1)
        ⟨fm_required_columns, [⟨Cell.num 2, Cell.num 100, Cell.num 2500⟩]⟩ := by
  apply C8_same_draws_same_table
  intro i hi
  simp only [List.length_cons, List.length_nil] at hi
  simp [hi]

/-- C9: every record task_file_maker.py writes carries the constants
cpu_capacity = 2500.0 and duration = 2592252000 (and one fixed
submission_time), whatever the input row holds; only id, cpu_count and
mem_capacity vary with the row. -/
theorem C9_task_maker_constants :
    (∀ (timestamp : ℤ) (rows : List CsvRow), ∀ r ∈ task_make_table timestamp rows,
        r.cpu_capacity = 2500 ∧ r.duration = 2592252000 ∧
        r.submission_time = timestamp) ∧
    (∀ (timestamp : ℤ) (a b : CsvRow),
        (task_out_row timestamp a).cpu_capacity = (task_out_row timestamp b).cpu_capacity ∧
        (task_out_row timestamp a).duration = (task_out_row timestamp b).duration ∧
        (task_out_row timestamp a).submission_time
          = (task_out_row timestamp b).submission_time) := by
  constructor
  · intro ts rows r hr
    rw [task_make_table, List.mem_mergeSort] at hr
    obtain ⟨c, _, rfl⟩ := List.mem_map.mp hr
    exact ⟨rfl, rfl, rfl⟩
  · intro ts a b
    exact ⟨rfl, rfl, rfl⟩

/-- C9, witness at a concrete CSV row. -/
theorem C9_witness :
    ((task_out_row 1376325346000 ⟨7, Cell.num 4, Cell.num 8192⟩)
        ∈ task_make_table 1376325346000 [⟨7, Cell.num 4, Cell.num 8192⟩]) ∧
    (task_out_row 1376325346000 ⟨7, Cell.num 4, Cell.num 8192⟩).cpu_capacity = 2500 ∧
    (task_out_row 1376325346000 ⟨7, Cell.num 4, Cell.num 8192⟩).duration = 2592252000 ∧
    (task_out_row 1376325346000 ⟨7, Cell.num 4, Cell.num 8192⟩).submission_time
      = 1376325346000 := by
  have hmem : (task_out_row 1376325346000 ⟨7, Cell.num 4, Cell.num 8192⟩)
      ∈ task_make_table 1376325346000 [⟨7, Cell.num 4, Cell.num 8192⟩] := by
    rw [task_make_table, List.mem_mergeSort]
    simp
  exact ⟨hmem, C9_task_maker_constants.1 1376325346000 _ _ hmem⟩

/-- C10, counterexample: a numeric but fractional "CPUs VM is using" cell of
7/2 yields cpu_count 3 — the value truncated by the int32 cast — not the
row's value itself. -/
theorem C10_counterexample :
    ((fm_create_fragment_file (fun _ => (0 : Fin 3))
        ⟨fm_required_columns, [⟨Cell.num (7/2), Cell.num 100, Cell.num 2500⟩]⟩).map
      (List.map (fun f => f.cpu_count)) = some [3]) ∧
    ((7 : ℚ)/2) ≠ 3 := by
  constructor
  · rw [fm_create_fragment_file, if_pos (by decide)]
    simp only [fm_fragments_from, fm_fragment, Option.map_some, List.map_cons,
      List.map_nil]
    norm_num [truncToInt, coerceFill, Cell.toNumericOrNa]
  · norm_num

/-- C10, amended: with the required columns present the maker never fails:
it emits exactly one fragment per input row, with duration drawn from
{300000, 600000, 900000}, cpu_usage the row's "CPU Utilization(MHz)" cell
coerced (non-numeric and missing become 0), and cpu_count the row's
"CPUs VM is using" cell coerced (non-numeric and missing become 1) and
truncated toward zero by the int32 cast. -/
theorem C10_one_fragment_per_row :
    (∀ (gen : ℕ → Fin 3) (tbl : ExcelTable),
        missing_columns fm_required_columns tbl.columns = [] →
          (fm_create_fragment_file gen tbl).isSome = true) ∧
    (∀ (gen : ℕ → Fin 3) (tbl : ExcelTable) (frags : List FMFragment),
        fm_create_fragment_file gen tbl = some frags →
          frags.length = tbl.rows.length ∧
          (∀ f ∈ frags, f.duration ∈ duration_choices) ∧
          (∀ (j : ℕ) (r : ExcelRow), tbl.rows.get? j = some r →
              frags.get? j = some
                { id := toString (j + 1)
                  duration := choose_duration (gen j)
                  cpu_count := truncToInt (coerceFill 1 r.cpus_vm_is_using)
                  cpu_usage := coerceFill 0 r.cpu_utilization_mhz })) := by
  constructor
  · intro gen tbl hm
    rw [fm_create_fragment_file, if_pos hm]
    rfl
  · intro gen tbl frags h
    rw [fm_create_fragment_file] at h
    by_cases hm : missing_columns fm_required_columns tbl.columns = []
    · rw [if_pos hm] at h
      simp only [Option.some.injEq] at h
      subst h
      refine ⟨fm_fragments_from_length gen tbl.rows 0, ?_, ?_⟩
      · exact fm_fragments_from_duration gen tbl.rows 0
      · intro j r hr
        rw [fm_fragments_from_getq gen tbl.rows 0 j, hr]
        simp [fm_fragment]
    · rw [if_neg hm] at h
      cases h

/-- C10, witness at a one-row table with a missing and a non-numeric cell. -/
theorem C10_witness :
    (fm_create_fragment_file (fun _ => (0 : Fin 3))
        ⟨fm_required_columns, [⟨Cell.na, Cell.na, Cell.num 2500⟩]⟩
      = some [⟨"1", 300000, 1, 0⟩]) ∧
    ([(⟨"1", 300000, 1, 0⟩ : FMFragment)].length
      = ([⟨Cell.na, Cell.na, Cell.num 2500⟩] : List ExcelRow).length) ∧
    (⟨"1", 300000, 1, 0⟩ : FMFragment).duration ∈ duration_choices := by
  have hv : fm_create_fragment_file (fun _ => (0 : Fin 3))
      ⟨fm_required_columns, [⟨Cell.na, Cell.na, Cell.num 2500⟩]⟩
      = some [⟨"1", 300000, 1, 0⟩] := by
    rw [fm_create_fragment_file, if_pos (by decide)]
    simp only [fm_fragments_from, fm_fragment, Option.some.injEq]
    norm_num [truncToInt, coerceFill, Cell.toNumericOrNa, choose_duration]
    decide
  have hout := C10_one_fragment_per_row.2 (fun _ => (0 : Fin 3))
      ⟨fm_required_columns, [⟨Cell.na, Cell.na, Cell.num 2500⟩]⟩
      [⟨"1", 300000, 1, 0⟩] hv
  exact ⟨hv, hout.1, hout.2.1 _ (by simp)⟩

end CitiResearch
